import Mathlib

/-!
Verification of the `zerolog_wrapper` Go package (github.com/ashokrajar/zerolog_wrapper).

The package configures a process-wide zerolog logger exactly once (guarded by a
`sync.Once`), resolving a string log level and an environment tag into a minimum
severity and an output writer, installing a caller-path marshal function, probing
the host IP over a UDP dial, and exposing `UpdateContext` plus level-scoped event
constructors.  The definitions below are a shallow embedding of
`zerolog_wrapper.go` (and, where a claim compares versions, of the earlier
revision of the same file); the zerolog engine's value-semantics builder chain
(`New`, `Level`, `With`, `Timestamp`, `IPAddr`, `Caller`, `Logger`,
`UpdateContext`, event construction and `Msg` finalization) is embedded from its
documented value-copy semantics, since the wrapper's behaviour depends on it.
-/

namespace ZW

/-- zerolog's severity levels, in the engine's ordering
(trace = -1, debug = 0, info = 1, warn = 2, error = 3, fatal = 4, panic = 5). -/
inductive ZLevel where
  | trace
  | debug
  | info
  | warn
  | error
  | fatal
  | panic
deriving DecidableEq, Repr

/-- Numeric code of a zerolog level (`zerolog.Level` is an `int8`). -/
def ZLevel.toInt : ZLevel → Int
  | .trace => -1
  | .debug => 0
  | .info => 1
  | .warn => 2
  | .error => 3
  | .fatal => 4
  | .panic => 5

/-- `type LogLevel string` in the wrapper. -/
abbrev LogLevel := String

/-- `type Env string` in the wrapper. -/
abbrev Env := String

def TraceLevel : LogLevel := "trace"
def DebugLevel : LogLevel := "debug"
def InfoLevel : LogLevel := "info"
def WarnLevel : LogLevel := "warn"
def ErrorLevel : LogLevel := "error"
def FatalLevel : LogLevel := "fatal"
def PanicLevel : LogLevel := "panic"

def Prod : Env := "prod"
def Stage : Env := "stage"
def QA : Env := "qa"
def Dev : Env := "dev"

/-- The `switch logLevelStr` statement of `InitLog` (zerolog_wrapper.go lines
83–100): a Go string switch is a sequence of equality tests with a `default`
arm mapping every unrecognized tag to `zerolog.InfoLevel`. -/
def resolveLevel (logLevelStr : LogLevel) : ZLevel :=
  if logLevelStr = TraceLevel then ZLevel.trace
  else if logLevelStr = DebugLevel then ZLevel.debug
  else if logLevelStr = InfoLevel then ZLevel.info
  else if logLevelStr = WarnLevel then ZLevel.warn
  else if logLevelStr = ErrorLevel then ZLevel.error
  else if logLevelStr = FatalLevel then ZLevel.fatal
  else if logLevelStr = PanicLevel then ZLevel.panic
  else ZLevel.info

/-- Output streams the wrapper binds writers to. -/
inductive Stream where
  | stdout
  | stderr
deriving DecidableEq, Repr

/-- `zerolog.ConsoleWriter{Out: os.Stdout, TimeFormat: time.RFC3339}`. -/
structure ConsoleWriter where
  out : Stream
  timeFormat : String
deriving DecidableEq, Repr

/-- Writers the wrapper constructs: the zero value (`nil` writer of a
zero-valued `zerolog.Logger`), a raw stream, or a console-formatted writer. -/
inductive Writer where
  | nilWriter
  | stream (s : Stream)
  | console (c : ConsoleWriter)
deriving DecidableEq, Repr

/-- `zerolog.MultiLevelWriter(w)` over a single writer: a leveled wrapper
around exactly that writer. -/
structure Output where
  writer : Writer
deriving DecidableEq, Repr

def multiLevelWriter (w : Writer) : Output :=
  { writer := w }

/-- `time.RFC3339`. -/
def rfc3339 : String := "2006-01-02T15:04:05Z07:00"

/-- A key/value field of a log record or of a logger's base context. -/
structure Field where
  key : String
  value : String
deriving DecidableEq, Repr

/-- A zerolog logger value: the bound writer, the minimum severity, the
persistent base context fields, and the two automatic-enrichment hooks the
wrapper enables (`Timestamp()` and `Caller()`).  zerolog loggers are plain
values; builder methods copy them. -/
structure Logger where
  output : Output
  level : ZLevel
  context : List Field
  timestampHook : Bool
  callerHook : Bool
deriving DecidableEq, Repr

/-- The zero value `zerolog.Logger{}` that the package-level `Logger` variable
holds before initialization: nil writer, level 0 (= debug), empty context, no
hooks. -/
def zeroLogger : Logger :=
  { output := { writer := Writer.nilWriter }
    level := ZLevel.debug
    context := []
    timestampHook := false
    callerHook := false }

/-- `zerolog.New(w)`: a logger bound to `w` with level `TraceLevel`, empty
context and no hooks. -/
def zerologNew (o : Output) : Logger :=
  { output := o
    level := ZLevel.trace
    context := []
    timestampHook := false
    callerHook := false }

/-- `Logger.Level(lvl)`: copy of the logger with the minimum severity set. -/
def Logger.levelSet (l : Logger) (lvl : ZLevel) : Logger :=
  { l with level := lvl }

/-- `zerolog.Context`: a logger-context builder holding a copy of the logger
it was created from. -/
structure Context where
  l : Logger
deriving DecidableEq, Repr

/-- `Logger.With()`: a `Context` wrapping a copy of the logger (value
receiver, so the original logger is untouched). -/
def Logger.withCtx (l : Logger) : Context :=
  { l := l }

/-- `Context.Timestamp()`: enables the per-record timestamp hook in the copy. -/
def Context.timestamp (c : Context) : Context :=
  { c with l := { c.l with timestampHook := true } }

/-- `Context.IPAddr(key, ip)`: appends the fixed IP field to the copy's base
context. -/
def Context.ipAddr (c : Context) (key : String) (ip : String) : Context :=
  { c with l := { c.l with context := c.l.context ++ [{ key := key, value := ip }] } }

/-- `Context.Caller()`: enables the per-record caller-capture hook in the
copy. -/
def Context.caller (c : Context) : Context :=
  { c with l := { c.l with callerHook := true } }

/-- `Context.Str(key, val)`: appends a string field to the copy's base
context. -/
def Context.str (c : Context) (key : String) (val : String) : Context :=
  { c with l := { c.l with context := c.l.context ++ [{ key := key, value := val }] } }

/-- `Context.Logger()`: the logger accumulated in the context. -/
def Context.logger (c : Context) : Logger :=
  c.l

/-- `(*Logger).UpdateContext(update)`: applies `update` to a `Context` wrapping
a copy of the logger and stores back only the resulting base context — the
receiver's writer, level and hooks are untouched and the variable itself is
mutated in place rather than rebound. -/
def Logger.updateContext (l : Logger) (update : Context → Context) : Logger :=
  { l with context := (update { l := l }).l.context }

/-- `strings.TrimPrefix(s, prefix)`: drops `prefix` from the front of `s` when
it is a prefix, otherwise returns `s` unchanged (modelled at character level). -/
def trimPrefix (s pre : String) : String :=
  if pre.data.isPrefixOf s.data then { data := s.data.drop pre.data.length } else s

/-- zerolog's default `CallerMarshalFunc`: `file + ":" + strconv.Itoa(line)`,
independent of the working directory.  The first argument is the working
directory at the time the caller field is rendered (unused here). -/
def defaultCallerMarshal (_cwdNow : String) (file : String) (line : Nat) : String :=
  file ++ ":" ++ toString line

/-- The caller marshal closure `InitLog` installs (zerolog_wrapper.go lines
115–120).  The closure calls `os.Getwd()` each time it runs, so it takes the
working directory current at rendering time as its first argument, trims it
(plus a path separator) off the file path and appends `":" ++ line`. -/
def callerMarshalFunc (cwdNow : String) (file : String) (line : Nat) : String :=
  let curDir := cwdNow
  let shortPath := trimPrefix file (curDir ++ "/")
  shortPath ++ ":" ++ toString line

/-- The package-level mutable state: the `once sync.Once` guard (its `done`
flag), the published `Logger` variable, and the process-global
`zerolog.CallerMarshalFunc` (a function of the rendering-time working
directory, the file and the line).  `bodyRuns` is a ghost counter, incremented
exactly when the function passed to `once.Do` executes, used to state the
at-most-once property. -/
structure GlobalState where
  onceDone : Bool
  logger : Logger
  callerMarshal : String → String → Nat → String
  bodyRuns : Nat

/-- Process-start state: `once` not fired, `Logger` zero-valued, zerolog's
default caller marshal installed. -/
def GlobalState.init : GlobalState :=
  { onceDone := false
    logger := zeroLogger
    callerMarshal := defaultCallerMarshal
    bodyRuns := 0 }

/-- `once.Do(body)` as observed after the call returns: the body runs iff the
guard has not fired yet, and the guard is marked fired afterwards. -/
def onceDo (st : GlobalState) (body : GlobalState → GlobalState) : GlobalState :=
  if st.onceDone then st else { body st with onceDone := true }

/-- The function literal passed to `once.Do` inside `InitLog`
(zerolog_wrapper.go lines 80–130), on its successful path: resolve the level,
pick the output (stderr by default, console-on-stdout with forced trace when
`appEnv == Dev`), install the caller marshal closure, build the logger through
the zerolog builder chain with the probed host IP, publish it to `Logger`, and
evaluate the trailing discarded expression `Logger.With().Caller()`.
`ip` is the address `getLocalIP` returned (the probe's failure path is
modelled separately by `getLocalIP`). -/
def initLogBody (logLevelStr : LogLevel) (appEnv : Env) (ip : String)
    (st : GlobalState) : GlobalState :=
  let logLevel := resolveLevel logLevelStr
  let output := multiLevelWriter (Writer.stream Stream.stderr)
  let (logLevel, output) :=
    if appEnv = Dev then
      let consoleOutput := Writer.console { out := Stream.stdout, timeFormat := rfc3339 }
      (ZLevel.trace, multiLevelWriter consoleOutput)
    else
      (logLevel, output)
  let st := { st with callerMarshal := callerMarshalFunc }
  let newLogger :=
    (((((zerologNew output).levelSet logLevel).withCtx).timestamp).ipAddr
        "host_ip" ip).caller.logger
  let st := { st with logger := newLogger }
  let _discarded := (st.logger.withCtx).caller
  st

/-- `InitLog(logLevelStr, appEnv)`: the body above guarded by `once.Do`, with
the ghost run counter ticked when the body actually executes. -/
def InitLog (logLevelStr : LogLevel) (appEnv : Env) (ip : String)
    (st : GlobalState) : GlobalState :=
  onceDo st (fun s => initLogBody logLevelStr appEnv ip { s with bodyRuns := s.bodyRuns + 1 })

/-- The wrapper's `UpdateContext(update)`: forwards to
`Logger.UpdateContext(update)` on the published logger variable. -/
def UpdateContext (update : Context → Context) (st : GlobalState) : GlobalState :=
  { st with logger := st.logger.updateContext update }

/-- A finalized log record: severity, the fields attached (base context), and
the message passed to `Msg`. -/
structure Record where
  level : ZLevel
  fields : List Field
  message : String
deriving DecidableEq, Repr

/-- A pending zerolog event (`*zerolog.Event`): created by a level-scoped
constructor, carrying the would-be record's severity and fields.  No record is
produced until the event is finalized with `Msg`/`Send`. -/
structure Event where
  level : ZLevel
  fields : List Field
deriving DecidableEq, Repr

/-- `Logger.newEvent(level)`: `none` models the nil event returned when the
record's severity is below the logger's minimum (finalizing it is a no-op);
otherwise the event starts from the logger's base context. -/
def Logger.newEvent (l : Logger) (lvl : ZLevel) : Option Event :=
  if l.level.toInt ≤ lvl.toInt then some { level := lvl, fields := l.context } else none

/-- `Logger.Fatal()`. -/
def Logger.fatalEvent (l : Logger) : Option Event :=
  l.newEvent ZLevel.fatal

/-- `Event.Err(err)`: attaches the error as a field on the pending event;
does NOT finalize it, so on its own it emits nothing. -/
def Event.errField (e : Option Event) (err : String) : Option Event :=
  e.map fun ev => { ev with fields := ev.fields ++ [{ key := "error", value := err }] }

/-- `Event.Msg(msg)`: finalization — the only operation that turns a pending
event into an emitted record. -/
def Event.msg (e : Option Event) (message : String) : Option Record :=
  e.map fun ev => { level := ev.level, fields := ev.fields, message := message }

/-- Emitting one record through a logger: level-scoped constructor followed by
`Msg` finalization. -/
def emitMsg (l : Logger) (lvl : ZLevel) (message : String) : Option Record :=
  Event.msg (l.newEvent lvl) message

/-- Rendering the caller field of a record under global state `st`, with the
working directory current at rendering time: applies the installed
`CallerMarshalFunc`. -/
def renderCaller (st : GlobalState) (cwdNow : String) (file : String) (line : Nat) : String :=
  st.callerMarshal cwdNow file line

/-- A `*net.UDPConn` as `getLocalIP` uses it: its local address's IP. -/
structure UDPConn where
  localIP : String
deriving DecidableEq, Repr

/-- How a call to `getLocalIP` terminates: normally with an IP, by a nil
pointer dereference panic, or by the process exit a finalized fatal event
would trigger. -/
inductive Outcome where
  | ok (ip : String)
  | nilPanic
  | fatalExit
deriving DecidableEq, Repr

/-- Result of running `getLocalIP`: the records it emitted through the logger
and how it terminated. -/
structure GetIPResult where
  emitted : List Record
  outcome : Outcome
deriving DecidableEq, Repr

/-- `getLocalIP()` (zerolog_wrapper.go lines 68–76), parameterized by the
result of `net.Dial("udp", "1.1.1.1:53")`: on error the connection is nil and
`err` is set; on success the connection is live and `err` is nil.  On the
error path the code evaluates `Logger.Fatal().Err(err)` — building a pending
fatal event that is never finalized with `Msg`/`Send`, so nothing is emitted
and zerolog's fatal exit never runs — then registers `defer conn.Close()` and
evaluates `conn.LocalAddr().(*net.UDPAddr).IP` on the nil connection, a nil
pointer dereference. -/
def getLocalIP (l : Logger) (conn : Option UDPConn) (err : Option String) : GetIPResult :=
  let pendingFatal : Option Event :=
    match err with
    | some e => Event.errField l.fatalEvent e
    | none => none
  let _pending := pendingFatal
  match conn with
  | none => { emitted := [], outcome := Outcome.nilPanic }
  | some c => { emitted := [], outcome := Outcome.ok c.localIP }

/-- The pure configuration resolution of the current `InitLog`
(zerolog_wrapper.go lines 83–112): level switch, default stderr output, dev
override to forced trace on a console stdout writer. -/
def resolveConfig (logLevelStr : LogLevel) (appEnv : Env) : ZLevel × Output :=
  let logLevel := resolveLevel logLevelStr
  let output := multiLevelWriter (Writer.stream Stream.stderr)
  if appEnv = Dev then
    let consoleOutput := Writer.console { out := Stream.stdout, timeFormat := rfc3339 }
    (ZLevel.trace, multiLevelWriter consoleOutput)
  else
    (logLevel, output)

/-- The `switch logLevelStr` statement of the earlier revision's `InitLog`
(src/unnamed/part_001 lines 77–96), embedded separately: textually the same
seven-case switch with an `info` default. -/
def resolveLevel_v1 (logLevelStr : LogLevel) : ZLevel :=
  if logLevelStr = TraceLevel then ZLevel.trace
  else if logLevelStr = DebugLevel then ZLevel.debug
  else if logLevelStr = InfoLevel then ZLevel.info
  else if logLevelStr = WarnLevel then ZLevel.warn
  else if logLevelStr = ErrorLevel then ZLevel.error
  else if logLevelStr = FatalLevel then ZLevel.fatal
  else if logLevelStr = PanicLevel then ZLevel.panic
  else ZLevel.info

/-- The redundant conversion `zerolog.Level(logLevel)` the earlier revision
applies to the already-`zerolog.Level`-typed resolved level: the identity
conversion. -/
def zerologLevelConv (l : ZLevel) : ZLevel :=
  l

/-- The pure configuration resolution of the earlier revision's `InitLog`
(src/unnamed/part_001 lines 77–106), including its redundant level
conversion. -/
def resolveConfig_v1 (logLevelStr : LogLevel) (appEnv : Env) : ZLevel × Output :=
  let logLevel := resolveLevel_v1 logLevelStr
  let output := multiLevelWriter (Writer.stream Stream.stderr)
  if appEnv = Dev then
    let consoleOutput := Writer.console { out := Stream.stdout, timeFormat := rfc3339 }
    (zerologLevelConv ZLevel.trace, multiLevelWriter consoleOutput)
  else
    (zerologLevelConv logLevel, output)

/-- Running a sequence of `InitLog` calls, each with its own arguments and
probed IP. -/
def runCalls : List (LogLevel × Env × String) → GlobalState → GlobalState
  | [], st => st
  | c :: rest, st => runCalls rest (InitLog c.1 c.2.1 c.2.2 st)

/-- `initLogBody` with the trailing discarded expression statement
`Logger.With().Caller()` removed, used to state that the statement has no
effect. -/
def initLogBodyNoTrailing (logLevelStr : LogLevel) (appEnv : Env) (ip : String)
    (st : GlobalState) : GlobalState :=
  let logLevel := resolveLevel logLevelStr
  let output := multiLevelWriter (Writer.stream Stream.stderr)
  let (logLevel, output) :=
    if appEnv = Dev then
      let consoleOutput := Writer.console { out := Stream.stdout, timeFormat := rfc3339 }
      (ZLevel.trace, multiLevelWriter consoleOutput)
    else
      (logLevel, output)
  let st := { st with callerMarshal := callerMarshalFunc }
  let newLogger :=
    (((((zerologNew output).levelSet logLevel).withCtx).timestamp).ipAddr
        "host_ip" ip).caller.logger
  { st with logger := newLogger }

/-- The caller-path formatter as claim C6 states it (modelled from the spec's
words, for comparison with the source's `callerMarshalFunc`): the working
directory is captured once at resolution (initialization) time, and rendering
strips that captured directory prefix from the file path. -/
def callerMarshalClaimed (initCwd : String) (file : String) (line : Nat) : String :=
  trimPrefix file (initCwd ++ "/") ++ ":" ++ toString line

/- Helper lemmas (shared by several claim proofs). -/

theorem initLog_of_done {st : GlobalState} (h : st.onceDone = true)
    (lv : LogLevel) (env : Env) (ip : String) : InitLog lv env ip st = st := by
  simp [InitLog, onceDo, h]

theorem initLog_onceDone (lv : LogLevel) (env : Env) (ip : String) (st : GlobalState) :
    (InitLog lv env ip st).onceDone = true := by
  by_cases h : st.onceDone = true
  · simp [InitLog, onceDo, h]
  · simp at h
    simp [InitLog, onceDo, h]

theorem runCalls_of_done (calls : List (LogLevel × Env × String)) {st : GlobalState}
    (h : st.onceDone = true) : runCalls calls st = st := by
  induction calls with
  | nil => rfl
  | cons c rest ih =>
      simp [runCalls, initLog_of_done h, ih]

/-- C4: `InitLog` level resolution maps the seven recognized tags trace,
debug, info, warn, error, fatal, panic one-to-one onto the engine's
corresponding severities, and maps every other string to info. -/
theorem resolveLevel_seven_tags_and_default :
    (resolveLevel "trace" = ZLevel.trace ∧ resolveLevel "debug" = ZLevel.debug ∧
     resolveLevel "info" = ZLevel.info ∧ resolveLevel "warn" = ZLevel.warn ∧
     resolveLevel "error" = ZLevel.error ∧ resolveLevel "fatal" = ZLevel.fatal ∧
     resolveLevel "panic" = ZLevel.panic) ∧
    ([resolveLevel "trace", resolveLevel "debug", resolveLevel "info",
      resolveLevel "warn", resolveLevel "error", resolveLevel "fatal",
      resolveLevel "panic"].Nodup) ∧
    (∀ s : LogLevel, s ≠ "trace" → s ≠ "debug" → s ≠ "info" → s ≠ "warn" →
      s ≠ "error" → s ≠ "fatal" → s ≠ "panic" → resolveLevel s = ZLevel.info) := by
  refine ⟨by decide, by decide, ?_⟩
  intro s h1 h2 h3 h4 h5 h6 h7
  simp [resolveLevel, TraceLevel, DebugLevel, InfoLevel, WarnLevel, ErrorLevel,
    FatalLevel, PanicLevel, h1, h2, h3, h4, h5, h6, h7]

/-- Witness for C4 at the concrete unrecognized tag "verbose". -/
theorem resolveLevel_seven_tags_and_default_witness :
    ("verbose" : LogLevel) ≠ "trace" ∧ resolveLevel "verbose" = ZLevel.info :=
  ⟨by decide,
   resolveLevel_seven_tags_and_default.2.2 "verbose" (by decide) (by decide)
     (by decide) (by decide) (by decide) (by decide) (by decide)⟩

/-- C3: for every requested level, `InitLog` with `env = dev` publishes a
logger at minimum severity trace with a console-formatted writer on standard
output; with any `env ≠ dev` it publishes a logger on standard error whose
minimum severity is the resolved input level. -/
theorem initLog_env_routing (lv : LogLevel) (env : Env) (ip : String) :
    (env = Dev →
      (InitLog lv env ip GlobalState.init).logger.level = ZLevel.trace ∧
      (InitLog lv env ip GlobalState.init).logger.output =
        multiLevelWriter (Writer.console { out := Stream.stdout, timeFormat := rfc3339 })) ∧
    (env ≠ Dev →
      (InitLog lv env ip GlobalState.init).logger.level = resolveLevel lv ∧
      (InitLog lv env ip GlobalState.init).logger.output =
        multiLevelWriter (Writer.stream Stream.stderr)) := by
  constructor
  · intro h
    constructor <;>
      simp [InitLog, onceDo, GlobalState.init, initLogBody, h, zerologNew,
        Logger.levelSet, Logger.withCtx, Context.timestamp, Context.ipAddr,
        Context.caller, Context.logger, multiLevelWriter]
  · intro h
    constructor <;>
      simp [InitLog, onceDo, GlobalState.init, initLogBody, h, zerologNew,
        Logger.levelSet, Logger.withCtx, Context.timestamp, Context.ipAddr,
        Context.caller, Context.logger, multiLevelWriter]

/-- Witness for C3 at level "warn" with envs "dev" and "prod". -/
theorem initLog_env_routing_witness :
    (InitLog "warn" "dev" "10.0.0.1" GlobalState.init).logger.level = ZLevel.trace ∧
    (InitLog "warn" "prod" "10.0.0.1" GlobalState.init).logger.level = resolveLevel "warn" :=
  ⟨((initLog_env_routing "warn" "dev" "10.0.0.1").1 rfl).1,
   ((initLog_env_routing "warn" "prod" "10.0.0.1").2 (by decide)).1⟩

/-- C10: the pure configuration resolution of the current `InitLog` and of
the earlier source revision agree on every (level, env) pair: same resolved
minimum severity and same output-target choice. -/
theorem resolveConfig_versions_equal (lv : LogLevel) (env : Env) :
    resolveConfig_v1 lv env = resolveConfig lv env := by
  by_cases h : env = Dev <;>
    simp [resolveConfig, resolveConfig_v1, zerologLevelConv, resolveLevel,
      resolveLevel_v1, h]

/-- C1: `InitLog` is idempotent — starting from the process-start state, the
configuration body runs exactly once on the first call and never again, and
any sequence of later calls, with any arguments, leaves the entire published
state (in particular the `Logger` handle) unchanged. -/
theorem initLog_idempotent (lv : LogLevel) (env : Env) (ip : String)
    (calls : List (LogLevel × Env × String)) :
    runCalls calls (InitLog lv env ip GlobalState.init) = InitLog lv env ip GlobalState.init ∧
    (runCalls calls (InitLog lv env ip GlobalState.init)).logger
      = (InitLog lv env ip GlobalState.init).logger ∧
    (InitLog lv env ip GlobalState.init).bodyRuns = 1 ∧
    (runCalls calls (InitLog lv env ip GlobalState.init)).bodyRuns = 1 := by
  have hd := initLog_onceDone lv env ip GlobalState.init
  have he := runCalls_of_done calls hd
  have hb : (InitLog lv env ip GlobalState.init).bodyRuns = 1 := by
    simp [InitLog, onceDo, GlobalState.init, initLogBody]
  exact ⟨he, by rw [he], hb, by rw [he]; exact hb⟩

/-- C9: the trailing expression statement `Logger.With().Caller()` at the end
of the initialization body has no effect — the body with the statement and the
body without it produce identical states, and the published logger is exactly
the logger built by the preceding builder chain over the resolved
configuration. -/
theorem trailing_withCaller_noEffect (lv : LogLevel) (env : Env) (ip : String)
    (st : GlobalState) :
    initLogBody lv env ip st = initLogBodyNoTrailing lv env ip st ∧
    (initLogBody lv env ip st).logger =
      (((((zerologNew (resolveConfig lv env).2).levelSet
          (resolveConfig lv env).1).withCtx).timestamp).ipAddr "host_ip" ip).caller.logger := by
  constructor
  · rfl
  · by_cases h : env = Dev <;>
      simp [initLogBody, resolveConfig, h]

/-- Dropping an appended leading copy: Go's `strings.TrimPrefix` on a string
that starts with the prefix returns exactly the remainder. -/
theorem trimPrefix_append (p t : String) : trimPrefix (p ++ t) p = t := by
  have hpre : p.data.isPrefixOf (p.data ++ t.data) = true :=
    List.isPrefixOf_iff_prefix.mpr (List.prefix_append p.data t.data)
  simp [ trimPrefix, String.data_append, hpre]

/-- C6 (amended): the caller-path formatter installed by `InitLog` reads the
process's working directory at each caller-field rendering (not once at
resolution time); it strips the rendering-time directory prefix (when
present) from the file path — in particular a file directly under that
directory renders as its relative path — and the result always ends with a
colon followed by the line number. -/
theorem initLog_callerMarshal (lv : LogLevel) (env : Env) (ip : String)
    (cwdNow : String) (file : String) (line : Nat) :
    renderCaller (InitLog lv env ip GlobalState.init) cwdNow file line
      = trimPrefix file (cwdNow ++ "/") ++ ":" ++ toString line ∧
    (∀ rest : String, file = cwdNow ++ "/" ++ rest →
      renderCaller (InitLog lv env ip GlobalState.init) cwdNow file line
        = rest ++ ":" ++ toString line) ∧
    (∃ p, renderCaller (InitLog lv env ip GlobalState.init) cwdNow file line
        = p ++ ":" ++ toString line) := by
  refine ⟨rfl, ?_, ?_⟩
  · intro rest hf
    have h1 : renderCaller (InitLog lv env ip GlobalState.init) cwdNow file line
        = trimPrefix file (cwdNow ++ "/") ++ ":" ++ toString line := rfl
    rw [h1, hf]
    rw [show cwdNow ++ "/" ++ rest = (cwdNow ++ "/") ++ rest from rfl]
    rw [trimPrefix_append]
  · refine ⟨ trimPrefix file (cwdNow ++ "/"), rfl⟩

/-- Witness for C6 (amended) at a concrete rendering-time working directory
and file. -/
theorem initLog_callerMarshal_witness :
    ("/ws/main.go" : String) = "/ws" ++ "/" ++ "main.go" ∧
    renderCaller (InitLog "info" "prod" "10.0.0.1" GlobalState.init)
      "/ws" "/ws/main.go" 42 = "main.go:42" := by
  refine ⟨by decide, ?_⟩
  have h := (initLog_callerMarshal "info" "prod" "10.0.0.1" "/ws" "/ws/main.go" 42).2.1
      "main.go" (by decide)
  rw [h]
  decide

/-- C6 counterexample: the claim says the working directory is captured once
at resolution time.  With the working directory `/ws/a` at initialization and
`/ws/b` at rendering time, the installed formatter strips the rendering-time
directory, so its output differs from the claimed capture-at-initialization
formatter at the same input. -/
theorem callerMarshal_captured_at_render_counterexample :
    renderCaller (InitLog "info" "prod" "10.0.0.1" GlobalState.init)
      "/ws/b" "/ws/b/main.go" 7 = "main.go:7" ∧
    callerMarshalClaimed "/ws/a" "/ws/b/main.go" 7 = "/ws/b/main.go:7" ∧
    renderCaller (InitLog "info" "prod" "10.0.0.1" GlobalState.init)
        "/ws/b" "/ws/b/main.go" 7
      ≠ callerMarshalClaimed "/ws/a" "/ws/b/main.go" 7 := by
  refine ⟨by decide, by decide, by decide⟩

/-- One record through a logger, written as a single conditional. -/
theorem emitMsg_eq (l : Logger) (lvl : ZLevel) (m : String) :
    emitMsg l lvl m = if l.level.toInt ≤ lvl.toInt then
      some { level := lvl, fields := l.context, message := m } else none := by
  by_cases hc : l.level.toInt ≤ lvl.toInt <;>
    simp [emitMsg, Logger.newEvent, Event.msg, hc]

/-- C7: `UpdateContext` with a field-appending mutator rewrites only the
published logger's base context in place — writer, level and hooks are
untouched — and a record emitted after the call carries the added field while
a record emitted before the call (when the field was not already present)
does not. -/
theorem updateContext_adds_field (st : GlobalState) (k v : String) (lvl : ZLevel)
    (msg : String)
    (hnew : ({ key := k, value := v } : Field) ∉ st.logger.context) :
    ((UpdateContext (fun c => Context.str c k v) st).logger.output = st.logger.output ∧
     (UpdateContext (fun c => Context.str c k v) st).logger.level = st.logger.level ∧
     (UpdateContext (fun c => Context.str c k v) st).logger.timestampHook
        = st.logger.timestampHook ∧
     (UpdateContext (fun c => Context.str c k v) st).logger.callerHook
        = st.logger.callerHook) ∧
    (∀ r : Record,
      emitMsg (UpdateContext (fun c => Context.str c k v) st).logger lvl msg = some r →
        ({ key := k, value := v } : Field) ∈ r.fields) ∧
    (∀ r : Record, emitMsg st.logger lvl msg = some r →
        ({ key := k, value := v } : Field) ∉ r.fields) := by
  have hctx : (UpdateContext (fun c => Context.str c k v) st).logger.context
      = st.logger.context ++ [{ key := k, value := v }] := rfl
  have hlvl : (UpdateContext (fun c => Context.str c k v) st).logger.level
      = st.logger.level := rfl
  refine ⟨⟨rfl, rfl, rfl, rfl⟩, ?_, ?_⟩
  · intro r hr
    rw [emitMsg_eq, hctx, hlvl] at hr
    by_cases hc : st.logger.level.toInt ≤ lvl.toInt
    · rw [if_pos hc] at hr
      have hrr := Option.some.inj hr
      rw [← hrr]
      simp
    · rw [if_neg hc] at hr
      exact absurd hr (by simp)
  · intro r hr
    rw [emitMsg_eq] at hr
    by_cases hc : st.logger.level.toInt ≤ lvl.toInt
    · rw [if_pos hc] at hr
      have hrr := Option.some.inj hr
      rw [← hrr]
      simpa using hnew
    · rw [if_neg hc] at hr
      exact absurd hr (by simp)

/-- Witness for C7: after `InitLog("info","prod")`, adding `request_id=42`
and emitting at info yields a record carrying the added field, which the
pre-call context did not contain. -/
theorem updateContext_adds_field_witness :
    (({ key := "request_id", value := "42" } : Field) ∉
        (InitLog "info" "prod" "10.0.0.1" GlobalState.init).logger.context) ∧
    ({ key := "request_id", value := "42" } : Field) ∈
      ({ level := ZLevel.info,
         fields := [{ key := "host_ip", value := "10.0.0.1" },
                    { key := "request_id", value := "42" }],
         message := "ready" } : Record).fields := by
  refine ⟨by decide, ?_⟩
  exact (updateContext_adds_field (InitLog "info" "prod" "10.0.0.1" GlobalState.init)
      "request_id" "42" ZLevel.info "ready" (by decide)).2.1 _ (by decide)

/-- C8: when the UDP dial fails (nil connection, non-nil error), `getLocalIP`
builds a fatal event that is never finalized, so it emits no record and does
not trigger zerolog's fatal process exit; instead it reaches the nil
connection dereference. -/
theorem getLocalIP_dial_failure (l : Logger) (err : String) :
    getLocalIP l none (some err) = { emitted := [], outcome := Outcome.nilPanic } ∧
    (getLocalIP l none (some err)).emitted = [] ∧
    (getLocalIP l none (some err)).outcome = Outcome.nilPanic :=
  ⟨rfl, rfl, rfl⟩

/-- C5: evaluation of `getLocalIP` on a concrete dial failure — contrary to
the claim, no fatal-level record is emitted (the event is never finalized)
and the path ends in a nil pointer dereference rather than a fatal-log-driven
abort. -/
theorem getLocalIP_probe_failure_behavior :
    getLocalIP zeroLogger none
        (some "dial udp 1.1.1.1:53: connect: network unreachable")
      = { emitted := [], outcome := Outcome.nilPanic } := rfl

end ZW







